import Mathlib

/-!
Shallow embedding of the `seeded-extraction` financial-statement extraction
pipeline (`src/app/core/extractors/*.py`, `src/app/core/document_processor.py`,
`src/app/models/financial.py`) together with theorems settling the frozen
claims about its natural-language specification.

Conventions of the embedding:
* Python strings are modelled as `List Char` (converted from Lean `String`
  at the interface); `str.lower` is `Char.toLower` per character and
  `str.strip` removes the same whitespace set Python does.
* Python floats are modelled as `ℚ`; every numeric literal compared by the
  claims is an exact decimal, so the comparisons agree with IEEE doubles.
* Fallible operations return `Option`; for functions that catch their own
  exceptions `none` models a caught failure, and where a function lets an
  exception escape this is said in its doc string.
* Python `dict`s keyed by period/item are modelled as insertion-ordered
  association lists with overwrite-in-place semantics, matching `dict`
  assignment.
* Each `re` pattern of the source is modelled by a dedicated matcher whose
  doc string names the pattern; greedy/lazy behaviour and backtracking are
  reproduced for the inputs the pattern can meet (notes inline).
* Character-level scanners take a fuel argument bounding the number of scan
  steps; callers pass the input length plus one, which is never exhausted
  because every step either stops or moves at least one character forward.
-/

namespace SeededExtraction

/-! ## Python string primitives -/

/-- Python's `str` whitespace (the characters `str.strip` removes and `\s`
matches for the ASCII inputs at hand). -/
def isPySpace (c : Char) : Bool :=
  c = ' ' ∨ c = '\t' ∨ c = '\n' ∨ c = '\x0b' ∨ c = '\x0c' ∨ c = '\r'

/-- Python `str.strip()`: drop whitespace from both ends. -/
def pyStrip (s : List Char) : List Char :=
  ((s.dropWhile isPySpace).reverse.dropWhile isPySpace).reverse

/-- `needle` occurs as a contiguous substring of `hay` (Python's `in` on
strings, and `re.search` of a literal pattern). -/
def listContains (hay ndl : List Char) : Bool :=
  ndl.isPrefixOf hay ||
    match hay with
    | [] => false
    | _ :: t => listContains t ndl

/-- Substring test on `String`s. -/
def strContains (hay ndl : String) : Bool :=
  listContains hay.data ndl.data

/-- Lower-case a Python string (`str.lower`; the inputs in scope are ASCII
plus currency symbols, on which `Char.toLower` agrees with Python). -/
def pyLower (s : List Char) : List Char :=
  s.map Char.toLower

/-- Numeric value of a digit string (most significant first). -/
def digitsVal (ds : List Char) : ℕ :=
  ds.foldl (fun a c => 10 * a + (c.toNat - 48)) 0

/-- Model of CPython `float()` restricted to plain decimal literals:
optional sign, then `digits[.digits]`, `digits.`, or `.digits`.  Exponent,
underscore, `inf`/`nan` and surrounding-whitespace forms are outside the
fragment any extractor call site can produce; on them, as on every other
unparseable string, the result is `none`, which models `float` raising
`ValueError`. -/
def pyFloat (cs : List Char) : Option ℚ :=
  let signed : ℤ × List Char :=
    match cs with
    | '-' :: r => (-1, r)
    | '+' :: r => (1, r)
    | _ => (1, cs)
  let ip := signed.2.takeWhile Char.isDigit
  let rest := signed.2.dropWhile Char.isDigit
  match rest with
  | [] => if ip.isEmpty then none else some (mkRat (signed.1 * digitsVal ip) 1)
  | '.' :: r2 =>
    let fp := r2.takeWhile Char.isDigit
    let rest2 := r2.dropWhile Char.isDigit
    if rest2.isEmpty ∧ ¬(ip.isEmpty ∧ fp.isEmpty) then
      some (mkRat (signed.1 * (digitsVal ip * 10 ^ fp.length + digitsVal fp)) (10 ^ fp.length))
    else none
  | _ => none

/-- First index of `c` in `l` (Python `str.index`, call sites guard
existence). -/
def firstIdx (c : Char) : List Char → ℕ
  | [] => 0
  | x :: t => if x = c then 0 else firstIdx c t + 1

/-- Python `s.split('\n')` on a character list (`"".split('\n') == [""]`,
trailing separators produce trailing empty pieces). -/
def splitNL : List Char → List (List Char)
  | [] => [[]]
  | '\n' :: rest => [] :: splitNL rest
  | c :: rest =>
    match splitNL rest with
    | l :: ls => (c :: l) :: ls
    | [] => [[c]]

/-- Python `text.split('\n')` as lists of characters. -/
def splitLines (text : String) : List (List Char) :=
  splitNL text.data

/-- `'\n'.join(...)`. -/
def joinNL : List (List Char) → List Char
  | [] => []
  | [l] => l
  | l :: rest => l ++ '\n' :: joinNL rest

/-! ## Data model (`src/app/models/financial.py`) -/

inductive Currency where
  | USD | EUR | GBP | JPY | CNY | UNKNOWN
  deriving DecidableEq, Repr

inductive Unit where
  | THOUSANDS | MILLIONS | BILLIONS | ACTUAL | UNKNOWN
  deriving DecidableEq, Repr

inductive ConfidenceLevel where
  | HIGH | MEDIUM | LOW | MISSING
  deriving DecidableEq, Repr

inductive IncomeStatementItem where
  | REVENUE | COST_OF_REVENUE | GROSS_PROFIT | OPERATING_EXPENSES | RND
  | SGNA | OPERATING_INCOME | INTEREST_EXPENSE | INCOME_TAX | NET_INCOME
  | EBITDA
  deriving DecidableEq, Repr

/-- The `.value` string of each enum member. -/
def IncomeStatementItem.value : IncomeStatementItem → String
  | .REVENUE => "Revenue"
  | .COST_OF_REVENUE => "Cost of Revenue"
  | .GROSS_PROFIT => "Gross Profit"
  | .OPERATING_EXPENSES => "Operating Expenses"
  | .RND => "Research & Development"
  | .SGNA => "Selling, General & Administrative"
  | .OPERATING_INCOME => "Operating Income"
  | .INTEREST_EXPENSE => "Interest Expense"
  | .INCOME_TAX => "Income Tax"
  | .NET_INCOME => "Net Income"
  | .EBITDA => "EBITDA"

/-- All eleven members in declaration order: the iteration order of
`for item in IncomeStatementItem` and the universe `set(IncomeStatementItem)`
is measured against.  Python's set has no stable order, so every list the
source builds from the set is modelled in this canonical order; no claim
depends on the order of such lists. -/
def allItems : List IncomeStatementItem :=
  [.REVENUE, .COST_OF_REVENUE, .GROSS_PROFIT, .OPERATING_EXPENSES, .RND,
   .SGNA, .OPERATING_INCOME, .INTEREST_EXPENSE, .INCOME_TAX, .NET_INCOME,
   .EBITDA]

structure ExtractedValue where
  value : Option ℚ
  original_text : Option String
  confidence : ConfidenceLevel
  notes : Option String := none
  deriving DecidableEq, Repr

/-- `data[period]`: insertion-ordered mapping item → value. -/
abbrev ItemMap := List (IncomeStatementItem × ExtractedValue)

/-- `data`: insertion-ordered mapping period string → `ItemMap`. -/
abbrev DataMap := List (String × ItemMap)

/-- `raw_extracts`: period string → item label → source line. -/
abbrev RawMap := List (String × List (String × String))

/-- `m[k] = v` on an inner dict: overwrite in place if the key exists,
else append (Python `dict` assignment). -/
def ItemMap.setItem (m : ItemMap) (k : IncomeStatementItem) (v : ExtractedValue) : ItemMap :=
  if m.any (fun p => p.1 = k) then
    m.map (fun p => if p.1 = k then (k, v) else p)
  else m ++ [(k, v)]

def ItemMap.getItem (m : ItemMap) (k : IncomeStatementItem) : Option ExtractedValue :=
  (m.find? (fun p => p.1 = k)).map (fun p => p.2)

/-- Same assignment semantics for a string-keyed dict. -/
def RawRow.setItem (m : List (String × String)) (k : String) (v : String) :
    List (String × String) :=
  if m.any (fun p => p.1 = k) then
    m.map (fun p => if p.1 = k then (k, v) else p)
  else m ++ [(k, v)]

/-- `data[year][item] = v`; every call site has pre-initialized `year`
(a `KeyError` is impossible in the source), so the update only rewrites an
existing entry. -/
def DataMap.setIn (d : DataMap) (year : String) (k : IncomeStatementItem)
    (v : ExtractedValue) : DataMap :=
  d.map (fun p => if p.1 = year then (p.1, ItemMap.setItem p.2 k v) else p)

def RawMap.setIn (r : RawMap) (year : String) (k v : String) : RawMap :=
  r.map (fun p => if p.1 = year then (p.1, RawRow.setItem p.2 k v) else p)

/-- `data[year] = m`: overwrite or append a whole period. -/
def DataMap.setKey (d : DataMap) (year : String) (m : ItemMap) : DataMap :=
  if d.any (fun p => p.1 = year) then
    d.map (fun p => if p.1 = year then (year, m) else p)
  else d ++ [(year, m)]

def RawMap.setKey (r : RawMap) (year : String) (m : List (String × String)) : RawMap :=
  if r.any (fun p => p.1 = year) then
    r.map (fun p => if p.1 = year then (year, m) else p)
  else r ++ [(year, m)]

def DataMap.getKey (d : DataMap) (year : String) : Option ItemMap :=
  (d.find? (fun p => p.1 = year)).map (fun p => p.2)

/-- `data[year][item]` read access. -/
def DataMap.getIn (d : DataMap) (year : String) (k : IncomeStatementItem) :
    Option ExtractedValue :=
  match d.getKey year with
  | some m => m.getItem k
  | none => none

/-- `any(data.values())`: some period has at least one extracted value. -/
def anyValues (d : DataMap) : Bool :=
  d.any (fun p => ¬ p.2.isEmpty)

/-- Item appears under some period of `data`. -/
def itemFound (d : DataMap) (i : IncomeStatementItem) : Bool :=
  d.any (fun p => p.2.any (fun q => q.1 = i))

/-- `list(set(IncomeStatementItem) - found_items)` in canonical enum order
(Python set order is unspecified; the claims are set-level). -/
def missingOf (d : DataMap) : List IncomeStatementItem :=
  allItems.filter (fun i => ! itemFound d i)

/-- Item `i` appears under some period of `data` (the union, over all
periods, of the item keys present). -/
def appearsIn (d : DataMap) (i : IncomeStatementItem) : Prop :=
  ∃ period im, (period, im) ∈ d ∧ ∃ v, (i, v) ∈ im

/-! ## Number-token matchers of `free_extractor.py` -/

/-- Greedy `(?:,\d{3})*`: comma-separated three-digit groups. -/
def commaGroups : List Char → List Char × List Char
  | ',' :: d1 :: d2 :: d3 :: rest =>
    if d1.isDigit ∧ d2.isDigit ∧ d3.isDigit then
      let g := commaGroups rest
      (',' :: d1 :: d2 :: d3 :: g.1, g.2)
    else ([], ',' :: d1 :: d2 :: d3 :: rest)
  | cs => ([], cs)

/-- Greedy `(?:\.\d{1,2})?`: optional dot plus one or two decimals. -/
def frac12 : List Char → List Char × List Char
  | '.' :: a :: rest =>
    if a.isDigit then
      match rest with
      | b :: r2 => if b.isDigit then (['.', a, b], r2) else (['.', a], b :: r2)
      | [] => (['.', a], [])
    else ([], '.' :: a :: rest)
  | cs => ([], cs)

/-- One match of `\d{1,3}(?:,\d{3})*(?:\.\d{1,2})?` anchored at the head:
returns the captured token and the remainder.  The pattern is pure-greedy
here because nothing follows the group, so no backtracking can arise. -/
def freeNumMatch (cs : List Char) : Option (List Char × List Char) :=
  let run := cs.takeWhile Char.isDigit
  if run.isEmpty then none
  else
    let ip := run.take 3
    let cg := commaGroups (cs.drop ip.length)
    let fr := frac12 cg.2
    some (ip ++ cg.1 ++ fr.1, fr.2)

/-- `re.findall(r'\$?(\d{1,3}(?:,\d{3})*(?:\.\d{1,2})?)', line)`:
left-to-right non-overlapping scan; on failure the scan advances one
character.  Fuel bounds the scan steps; each step consumes at least one
character, so `length + 1` fuel is never exhausted. -/
def findAllFreeNumsAux : ℕ → List Char → List (List Char)
  | 0, _ => []
  | _, [] => []
  | fuel + 1, c :: rest =>
    let cs := if c = '$' then rest else c :: rest
    match freeNumMatch cs with
    | some (tok, after) => tok :: findAllFreeNumsAux fuel after
    | none => findAllFreeNumsAux fuel rest

def findAllFreeNums (cs : List Char) : List (List Char) :=
  findAllFreeNumsAux (cs.length + 1) cs

/-- One match of `\d+\.?\d*` anchored at the head (pure greedy; nothing
follows the group). -/
def kvNumMatch (cs : List Char) : Option (List Char × List Char) :=
  let run := cs.takeWhile Char.isDigit
  if run.isEmpty then none
  else
    match cs.dropWhile Char.isDigit with
    | '.' :: r2 => some (run ++ '.' :: r2.takeWhile Char.isDigit, r2.dropWhile Char.isDigit)
    | r1 => some (run, r1)

/-- `re.findall(r'(\d+\.?\d*)', value_str)`. -/
def findAllKVNumsAux : ℕ → List Char → List (List Char)
  | 0, _ => []
  | _, [] => []
  | fuel + 1, c :: rest =>
    match kvNumMatch (c :: rest) with
    | some (tok, after) => tok :: findAllKVNumsAux fuel after
    | none => findAllKVNumsAux fuel rest

def findAllKVNums (cs : List Char) : List (List Char) :=
  findAllKVNumsAux (cs.length + 1) cs

structure FinancialExtractionResult where
  document_name : String
  extraction_date : String
  currency : Currency
  unit : Unit
  confidence_overall : ConfidenceLevel
  data : DataMap
  warnings : List String
  missing_items : List IncomeStatementItem
  raw_extracts : RawMap
  deriving DecidableEq, Repr

/-! ## `FreeExtractor` (`src/app/core/extractors/free_extractor.py`) -/

namespace FreeExtractor

/-- `_parse_number`: remove commas, strip, then `float()`.  Unlike the
pattern engine's parser this one has no `try`/`except`: `none` models
`float()` raising `ValueError` past the caller, which can only happen on
input that did not come from the extractor's own number regex. -/
def parse_number (num_str : List Char) : Option ℚ :=
  pyFloat (pyStrip (num_str.filter (fun c => c ≠ ',')))

/-- `_detect_currency`: `'$' in text`. -/
def detect_currency (text : String) : Currency :=
  if listContains text.data ['$'] then .USD else .UNKNOWN

/-- `_detect_unit`: `'millions' in text.lower()`. -/
def detect_unit (text : String) : Unit :=
  if listContains (pyLower text.data) "millions".data then .MILLIONS else .UNKNOWN

/-- `item_mapping` of `_extract_table_format`, in dict insertion order. -/
def item_mapping : List (String × IncomeStatementItem) :=
  [("Revenue", .REVENUE),
   ("Cost of revenue", .COST_OF_REVENUE),
   ("Gross profit", .GROSS_PROFIT),
   ("Research and development", .RND),
   ("Selling, general and admin", .SGNA),
   ("Total operating expenses", .OPERATING_EXPENSES),
   ("Operating income", .OPERATING_INCOME),
   ("Interest expense", .INTEREST_EXPENSE),
   ("Income tax expense", .INCOME_TAX),
   ("Net income", .NET_INCOME),
   ("EBITDA", .EBITDA)]

/-- Inner loop of `_extract_table_format`: walk `item_mapping`, and on the
first item whose text occurs in the line with at least two number tokens on
the line, write both periods and `break`; an item whose text matches but
with fewer than two tokens lets the loop continue. -/
def tryItems : List (String × IncomeStatementItem) → List Char → DataMap × RawMap →
    DataMap × RawMap
  | [], _, dr => dr
  | (t, it) :: rest, line, (d, r) =>
    if listContains line t.data then
      let numbers := findAllFreeNums line
      if numbers.length ≥ 2 then
        let lineS := String.mk line
        let d' := (d.setIn "2023" it ⟨parse_number (numbers.getD 0 []), some lineS, .HIGH, none⟩).setIn
          "2022" it ⟨parse_number (numbers.getD 1 []), some lineS, .HIGH, none⟩
        let r' := (r.setIn "2023" it.value lineS).setIn "2022" it.value lineS
        (d', r')
      else tryItems rest line (d, r)
    else tryItems rest line (d, r)

/-- Line loop of `_extract_table_format`: strip, skip empty lines and lines
containing `CONSOLIDATED` or `In millions`, else try the item mapping. -/
def tableLines : List (List Char) → DataMap × RawMap → DataMap × RawMap
  | [], dr => dr
  | l :: rest, dr =>
    let line := pyStrip l
    if line.isEmpty ∨ listContains line "CONSOLIDATED".data ∨
        listContains line "In millions".data then
      tableLines rest dr
    else
      tableLines rest (tryItems item_mapping line dr)

/-- `_extract_table_format`: periods are the fixed literals `"2023"` and
`"2022"`; `warnings` is always empty. -/
def extract_table_format (lines : List (List Char)) : DataMap × RawMap × List String :=
  let dr := tableLines lines ([("2023", []), ("2022", [])], [("2023", []), ("2022", [])])
  (dr.1, dr.2, [])

/-- `key_mapping` of `_extract_key_value_format` (exact dict lookup). -/
def key_mapping : List (String × IncomeStatementItem) :=
  [("Revenue", .REVENUE), ("Expenses", .OPERATING_EXPENSES), ("Net Income", .NET_INCOME)]

/-- Line loop of `_extract_key_value_format`: split on the first colon,
strip both sides, take the first `\d+\.?\d*` token as `float`, record under
`"Current"` when the stripped key is exactly one of the three mapped keys.
`pyFloat` on such a token always succeeds (`float()` cannot fail on it). -/
def kvLines : List (List Char) → DataMap × RawMap → DataMap × RawMap
  | [], dr => dr
  | l :: rest, (d, r) =>
    if listContains l [':'] then
      let i := firstIdx ':' l
      let key := String.mk (pyStrip (l.take i))
      let value_str := pyStrip (l.drop (i + 1))
      match findAllKVNums value_str with
      | [] => kvLines rest (d, r)
      | n0 :: _ =>
        match key_mapping.find? (fun p => p.1 = key) with
        | some p =>
          let lineS := String.mk l
          kvLines rest
            (d.setIn "Current" p.2 ⟨pyFloat n0, some lineS, .HIGH, none⟩,
             r.setIn "Current" p.2.value lineS)
        | none => kvLines rest (d, r)
    else kvLines rest (d, r)

/-- `_extract_key_value_format`: single synthetic period `"Current"`. -/
def extract_key_value_format (lines : List (List Char)) : DataMap × RawMap × List String :=
  let dr := kvLines lines ([("Current", [])], [("Current", [])])
  (dr.1, dr.2, [])

/-- `_extract_line_by_line`: the trivial placeholder — always empty data
with one fixed warning. -/
def extract_line_by_line (_lines : List (List Char)) : DataMap × RawMap × List String :=
  ([], [], ["Using basic line-by-line extraction"])

/-- `_try_all_methods`: table format, then key-value format, each accepted
when its data dict is truthy and some period holds a value, else the
line-by-line placeholder. -/
def try_all_methods (lines : List (List Char)) : DataMap × RawMap × List String :=
  let m1 := extract_table_format lines
  if ¬ m1.1.isEmpty ∧ anyValues m1.1 then m1
  else
    let m2 := extract_key_value_format lines
    if ¬ m2.1.isEmpty ∧ anyValues m2.1 then m2
    else extract_line_by_line lines

/-- `FreeExtractor.extract`: run the cascade, detect metadata, and assemble
the result with `missing_items = universe - found` and overall confidence
`HIGH` when the data dict is truthy else `LOW`. -/
def extract (text : String) : FinancialExtractionResult :=
  let m := try_all_methods (splitLines text)
  { document_name := "Free_Extracted"
    extraction_date := ""
    currency := detect_currency text
    unit := detect_unit text
    confidence_overall := if ¬ m.1.isEmpty then .HIGH else .LOW
    data := m.1
    warnings := m.2.2
    missing_items := missingOf m.1
    raw_extracts := m.2.1 }

end FreeExtractor

/-! ## `BaseExtractor._normalize_line_item`
(`src/app/core/extractors/base_extractor.py`) -/

namespace BaseExtractor

/-- The `mappings` dict in insertion order.  The source literal lists the
key `"ebitda"` twice with the same value; a Python dict keeps a single
entry for it, modelled here as one entry. -/
def mappings : List (String × IncomeStatementItem) :=
  [("revenue", .REVENUE),
   ("sales", .REVENUE),
   ("total revenue", .REVENUE),
   ("operating revenue", .REVENUE),
   ("cost of revenue", .COST_OF_REVENUE),
   ("cost of sales", .COST_OF_REVENUE),
   ("cost of goods sold", .COST_OF_REVENUE),
   ("cogs", .COST_OF_REVENUE),
   ("gross profit", .GROSS_PROFIT),
   ("gross margin", .GROSS_PROFIT),
   ("operating expenses", .OPERATING_EXPENSES),
   ("opex", .OPERATING_EXPENSES),
   ("total operating expenses", .OPERATING_EXPENSES),
   ("expenses", .OPERATING_EXPENSES),
   ("research and development", .RND),
   ("r&d", .RND),
   ("research & development", .RND),
   ("research and development expenses", .RND),
   ("selling general and administrative", .SGNA),
   ("sg&a", .SGNA),
   ("selling, general & administrative", .SGNA),
   ("selling, general and administrative", .SGNA),
   ("selling general and admin", .SGNA),
   ("operating income", .OPERATING_INCOME),
   ("operating profit", .OPERATING_INCOME),
   ("income from operations", .OPERATING_INCOME),
   ("interest expense", .INTEREST_EXPENSE),
   ("interest", .INTEREST_EXPENSE),
   ("finance costs", .INTEREST_EXPENSE),
   ("income tax", .INCOME_TAX),
   ("tax expense", .INCOME_TAX),
   ("provision for income taxes", .INCOME_TAX),
   ("income tax expense", .INCOME_TAX),
   ("net income", .NET_INCOME),
   ("net profit", .NET_INCOME),
   ("net earnings", .NET_INCOME),
   ("bottom line", .NET_INCOME),
   ("ebitda", .EBITDA),
   ("earnings before interest", .EBITDA)]

/-- The dict walk: `for key, value in mappings.items(): if key in text_lower:
return value` — the test is only "key is a substring of the label". -/
def walkMappings : List (String × IncomeStatementItem) → List Char →
    Option IncomeStatementItem
  | [], _ => none
  | (k, v) :: rest, tl => if listContains tl k.data then some v else walkMappings rest tl

/-- `_normalize_line_item`: lower-case, strip (`text_lower`, inlined here),
walk the ordered table, then the two catch-all rules. -/
def normalize_line_item (text : List Char) : Option IncomeStatementItem :=
  match walkMappings mappings (pyStrip (pyLower text)) with
  | some v => some v
  | none =>
    if listContains (pyStrip (pyLower text)) "r&d".data ∨
        listContains (pyStrip (pyLower text)) "research".data then some .RND
    else if listContains (pyStrip (pyLower text)) "sg&a".data ∨
        listContains (pyStrip (pyLower text)) "selling".data then some .SGNA
    else none

end BaseExtractor

/-- What claim C6 (spec §4.3) states the normalizer does, written from the
spec's words for comparison with `BaseExtractor.normalize_line_item`:
return the first table entry whose phrase is a substring of the label *or
whose label is a substring of the phrase*, and apply the catch-alls only
when that lookup fails. -/
def specNormalizeBothWays (text : List Char) : Option IncomeStatementItem :=
  match BaseExtractor.mappings.find? (fun p =>
      listContains (pyStrip (pyLower text)) p.1.data ∨
      listContains p.1.data (pyStrip (pyLower text))) with
  | some p => some p.2
  | none =>
    if listContains (pyStrip (pyLower text)) "r&d".data ∨
        listContains (pyStrip (pyLower text)) "research".data then some .RND
    else if listContains (pyStrip (pyLower text)) "sg&a".data ∨
        listContains (pyStrip (pyLower text)) "selling".data then some .SGNA
    else none

/-- The amended claim C6, written from the spec's words with the over-broad
"label is a substring of the phrase" disjunct removed: first table entry
whose phrase is a substring of the lower-cased, trimmed label, then the
catch-alls. -/
def specNormalizeSubstrOnly (text : List Char) : Option IncomeStatementItem :=
  match BaseExtractor.mappings.find? (fun p =>
      listContains (pyStrip (pyLower text)) p.1.data) with
  | some p => some p.2
  | none =>
    if listContains (pyStrip (pyLower text)) "r&d".data ∨
        listContains (pyStrip (pyLower text)) "research".data then some .RND
    else if listContains (pyStrip (pyLower text)) "sg&a".data ∨
        listContains (pyStrip (pyLower text)) "selling".data then some .SGNA
    else none

/-! ## `PatternExtractor` (`src/app/core/extractors/pattern_extractor.py`) -/

namespace PatternExtractor

/-- `_parse_number`: remove commas and spaces, parenthesised means negative,
then a European-format branch, then `float()`.  The whole body sits in
`try`/`except ValueError`, so the function is total — `none` is the caught
failure returned to the caller.  The European branch is modelled exactly as
written even though it is unreachable: every comma was already removed two
lines above, so `',' ∈ s` is always false at that point. -/
def parse_number (number_str : List Char) : Option ℚ :=
  let s1 := (number_str.filter (fun c => c ≠ ',')).filter (fun c => c ≠ ' ')
  let s2 := if s1.head? = some '(' ∧ s1.getLast? = some ')' then
      '-' :: (s1.drop 1).dropLast
    else s1
  let s3 := if '.' ∈ s2 ∧ ',' ∈ s2 ∧ firstIdx '.' s2 < firstIdx ',' s2 then
      (s2.filter (fun c => c ≠ '.')).map (fun c => if c = ',' then '.' else c)
    else s2
  pyFloat s3

/-- `currency_patterns` in dict insertion order.  Each regex alternation is
modelled as substring search for its literal alternatives; an optional
trailing letter (`dollars?`, `euros?`, `pounds?`) never changes whether a
search succeeds, so only the stem is kept. -/
def currency_patterns : List (Currency × List String) :=
  [(.USD, ["$", "dollar", "usd"]),
   (.EUR, ["€", "euro", "eur"]),
   (.GBP, ["£", "pound", "gbp"]),
   (.JPY, ["¥", "yen", "jpy"]),
   (.CNY, ["¥", "yuan", "cny", "rmb"])]

/-- `unit_patterns` in dict insertion order (alternatives of
`thousand|thousands|k|000's` etc. as substring searches). -/
def unit_patterns : List (Unit × List String) :=
  [(.THOUSANDS, ["thousand", "thousands", "k", "000\x27s"]),
   (.MILLIONS, ["million", "millions", "m", "mn", "mln"]),
   (.BILLIONS, ["billion", "billions", "b", "bn"])]

/-- `_detect_currency`: first pattern (in enumeration order) matching the
lower-cased text wins; no match gives `UNKNOWN`. -/
def detect_currency (text : String) : Currency :=
  match currency_patterns.find? (fun p =>
      p.2.any (fun w => listContains (pyLower text.data) w.data)) with
  | some p => p.1
  | none => .UNKNOWN

/-- `_detect_unit`: same first-match-wins policy. -/
def detect_unit (text : String) : Unit :=
  match unit_patterns.find? (fun p =>
      p.2.any (fun w => listContains (pyLower text.data) w.data)) with
  | some p => p.1
  | none => .UNKNOWN

/-- One token of `20\d{2}|19\d{2}` anchored at the head. -/
def yearTokenAt : List Char → Option (List Char × List Char)
  | a :: b :: c :: d :: rest =>
    if ((a = '2' ∧ b = '0') ∨ (a = '1' ∧ b = '9')) ∧ c.isDigit ∧ d.isDigit then
      some ([a, b, c, d], rest)
    else none
  | _ => none

/-- `re.findall(self.year_pattern, text)`: non-overlapping left-to-right. -/
def findAllYearsAux : ℕ → List Char → List (List Char)
  | 0, _ => []
  | _, [] => []
  | fuel + 1, c :: rest =>
    match yearTokenAt (c :: rest) with
    | some (tok, after) => tok :: findAllYearsAux fuel after
    | none => findAllYearsAux fuel rest

def findAllYears (cs : List Char) : List (List Char) :=
  findAllYearsAux (cs.length + 1) cs

/-- `(20\d{2})\s+(20\d{2})` anchored at the head.  `\s+` is taken as the
whole whitespace run: backtracking to a shorter run would leave the second
group starting on a whitespace character, which cannot be `'2'`. -/
def yearHeaderAt (cs : List Char) : Option (String × String) :=
  match cs with
  | '2' :: '0' :: a :: b :: rest =>
    if a.isDigit ∧ b.isDigit then
      if (rest.takeWhile isPySpace).isEmpty then none
      else
        match rest.dropWhile isPySpace with
        | '2' :: '0' :: c :: d :: _ =>
          if c.isDigit ∧ d.isDigit then
            some (String.mk ['2', '0', a, b], String.mk ['2', '0', c, d])
          else none
        | _ => none
    else none
  | _ => none

/-- `re.search` of the year-header pattern: leftmost match position. -/
def searchYearHeaderAux : ℕ → List Char → Option (String × String)
  | 0, _ => none
  | _, [] => none
  | fuel + 1, c :: rest =>
    match yearHeaderAt (c :: rest) with
    | some g => some g
    | none => searchYearHeaderAux fuel rest

def searchYearHeader (cs : List Char) : Option (String × String) :=
  searchYearHeaderAux (cs.length + 1) cs

/-- `_extract_years_from_table`: first line with a two-year header gives
`[group(1), group(2)]`, else `[]`. -/
def extract_years_from_table : List (List Char) → List String
  | [] => []
  | l :: rest =>
    match searchYearHeader l with
    | some (y1, y2) => [y1, y2]
    | none => extract_years_from_table rest

/-- Lexicographic `<` on Python strings (code-point order). -/
def lexLt : List Char → List Char → Bool
  | [], [] => false
  | [], _ :: _ => true
  | _ :: _, [] => false
  | a :: as, b :: bs => if a < b then true else if b < a then false else lexLt as bs

def insertSorted (s : String) : List String → List String
  | [] => [s]
  | t :: rest => if lexLt s.data t.data then s :: t :: rest else t :: insertSorted s rest

/-- `sorted(list(set(l)))`: deduplicate, then sort ascending. -/
def sortedUnique (l : List String) : List String :=
  (l.foldl (fun acc s => if acc.contains s then acc else acc ++ [s]) []).foldr insertSorted []

/-- `_extract_years`: all year tokens in the text, deduplicated and
sorted. -/
def extract_years (text : List Char) : List String :=
  sortedUnique ((findAllYears text).map String.mk)

/-! ### The shared number pattern `\d{1,3}(?:[,\s]\d{3})*(?:\.\d{2})?`

`numCands` enumerates every way the pattern can match at the head of the
input, in regex backtracking order (greedy alternatives first); the head of
the list is therefore the match obtained when nothing follows the pattern,
and the row matcher below walks the list to implement backtracking when a
continuation must also match. -/

/-- Candidate `\d{1,3}` prefixes, longest first. -/
def digitPrefixCands (cs : List Char) : List (List Char × List Char) :=
  let n := min 3 (cs.takeWhile Char.isDigit).length
  (List.range n).map (fun k => (cs.take (n - k), cs.drop (n - k)))

/-- Candidate `(?:[,\s]\d{3})*` continuations, most repetitions first. -/
def sepGroupCands : List Char → List (List Char × List Char)
  | s :: d1 :: d2 :: d3 :: rest =>
    if (s = ',' ∨ isPySpace s) ∧ d1.isDigit ∧ d2.isDigit ∧ d3.isDigit then
      ((sepGroupCands rest).map (fun g => (s :: d1 :: d2 :: d3 :: g.1, g.2))) ++
        [([], s :: d1 :: d2 :: d3 :: rest)]
    else [([], s :: d1 :: d2 :: d3 :: rest)]
  | cs => [([], cs)]

/-- Candidate `(?:\.\d{2})?` continuations, with-decimals first. -/
def decCands : List Char → List (List Char × List Char)
  | '.' :: a :: b :: rest =>
    if a.isDigit ∧ b.isDigit then [(['.', a, b], rest), ([], '.' :: a :: b :: rest)]
    else [([], '.' :: a :: b :: rest)]
  | cs => [([], cs)]

def numCands (cs : List Char) : List (List Char × List Char) :=
  (digitPrefixCands cs).flatMap (fun p1 =>
    (sepGroupCands p1.2).flatMap (fun p2 =>
      (decCands p2.2).map (fun p3 => (p1.1 ++ p2.1 ++ p3.1, p3.2))))

/-- The pattern's match when nothing follows it (pure greedy). -/
def numGreedy (cs : List Char) : Option (List Char × List Char) :=
  (numCands cs).head?

/-- Tail `\s+\$?(num)\s+\$?(num)$` of the table-row regex.  Each `\s+` is
the whole whitespace run (what follows must be `$` or a digit, never a
whitespace character), while the two number groups backtrack through their
candidates; `\$?` is deterministic because a number never starts with
`$`. -/
def rowTail (cs : List Char) : Option (List Char × List Char) :=
  if (cs.takeWhile isPySpace).isEmpty then none
  else
    let cs1 := cs.dropWhile isPySpace
    let cs2 := if cs1.head? = some '$' then cs1.tail else cs1
    (numCands cs2).findSome? (fun p1 =>
      if (p1.2.takeWhile isPySpace).isEmpty then none
      else
        let r2 := p1.2.dropWhile isPySpace
        let r3 := if r2.head? = some '$' then r2.tail else r2
        match (numCands r3).find? (fun p2 => p2.2.isEmpty) with
        | some p2 => some (p1.1, p2.1)
        | none => none)

/-- `^([A-Za-z\s,]+?)\s+\$?(num)\s+\$?(num)$`: the lazy label group grows
one character at a time (shortest first), each character restricted to the
class `[A-Za-z\s,]`, and after each growth step the tail is attempted. -/
def rowMatchAux (label : List Char) : List Char → Option (List Char × List Char × List Char)
  | [] => none
  | c :: rest =>
    if c.isAlpha ∨ isPySpace c ∨ c = ',' then
      match rowTail rest with
      | some p => some (label ++ [c], p.1, p.2)
      | none => rowMatchAux (label ++ [c]) rest
    else none

/-- `_extract_from_table`'s two row regexes.  The second differs from the
first only by a mandatory leading `\s+`; it is applied to lines that were
already stripped, so it can never match and is modelled as retrying the
core after the leading whitespace run. -/
def matchTableRow (line : List Char) : Option (List Char × List Char × List Char) :=
  match rowMatchAux [] line with
  | some r => some r
  | none =>
    if (line.head?.map isPySpace).getD false then rowMatchAux [] (line.dropWhile isPySpace)
    else none

/-- Body loop of `_extract_from_table` over the lines after the header:
skip short and boilerplate lines, match the row regex, normalize the label,
and write `val1` under `years[1]` and `val2` under `years[0]` (the
value/year inversion), both with confidence `HIGH` and the full stripped
line as provenance. -/
def tableBody (y1 y0 : String) : List (List Char) → DataMap × RawMap → DataMap × RawMap
  | [], dr => dr
  | l :: rest, (d, r) =>
    let line := pyStrip l
    if line.isEmpty ∨ line.length < 5 then tableBody y1 y0 rest (d, r)
    else if (["consolidated", "statement", "in millions", "except per share"] :
        List String).any (fun x => listContains (pyLower line) x.data) then
      tableBody y1 y0 rest (d, r)
    else
      match matchTableRow line with
      | none => tableBody y1 y0 rest (d, r)
      | some (g1, g2, g3) =>
        match BaseExtractor.normalize_line_item (pyStrip g1) with
        | none => tableBody y1 y0 rest (d, r)
        | some it =>
          let lineS := String.mk line
          let d' := (d.setIn y1 it ⟨parse_number g2, some lineS, .HIGH, none⟩).setIn
            y0 it ⟨parse_number g3, some lineS, .HIGH, none⟩
          let r' := (r.setIn y1 it.value lineS).setIn y0 it.value lineS
          tableBody y1 y0 rest (d', r')

/-- `_extract_from_table`: guard on two years, find the header line to
start after (index 0 if none), then run the body loop; its own `warnings`
list stays empty. -/
def extract_from_table (lines : List (List Char)) (years : List String) :
    DataMap × RawMap × List String :=
  if years.isEmpty ∨ years.length < 2 then ([], [], ["No years found in table"])
  else
    let start_idx :=
      match lines.findIdx? (fun l => years.all (fun y => listContains l y.data)) with
      | some i => i + 1
      | none => 0
    let init : DataMap × RawMap := (years.map (fun y => (y, [])), years.map (fun y => (y, [])))
    let dr := tableBody (years.getD 1 "") (years.getD 0 "") (lines.drop start_idx) init
    (dr.1, dr.2, [])

/-- `_get_item_variations`: every member has an explicit entry, so the
dict `.get` default is never used. -/
def item_variations : IncomeStatementItem → List String
  | .REVENUE => ["revenue", "sales", "total revenue", "operating revenue"]
  | .COST_OF_REVENUE => ["cost of revenue", "cost of sales", "cost of goods sold", "cogs"]
  | .GROSS_PROFIT => ["gross profit", "gross margin"]
  | .OPERATING_EXPENSES =>
    ["operating expenses", "opex", "operating costs", "total operating expenses", "expenses"]
  | .RND => ["research and development", "r&d", "research & development",
             "research and development expenses"]
  | .SGNA => ["selling, general and administrative", "sg&a",
              "selling, general & administrative", "selling general and admin",
              "selling general and administrative"]
  | .OPERATING_INCOME => ["operating income", "operating profit", "income from operations"]
  | .INTEREST_EXPENSE => ["interest expense", "interest", "finance costs"]
  | .INCOME_TAX => ["income tax", "tax expense", "provision for income taxes",
                    "income tax expense"]
  | .NET_INCOME => ["net income", "net profit", "net earnings", "bottom line"]
  | .EBITDA => ["ebitda", "earnings before interest"]

/-- `_get_year_context`: concatenate, for every line mentioning the year,
the window of 5 lines of context on each side (windows of distinct hits
may repeat lines, as in the source), joined with newlines. -/
def get_year_context (text : List Char) (year : String) : List Char :=
  let lines := splitNL text
  let n := lines.length
  joinNL ((lines.enum.filter (fun p => listContains p.2 year.data)).flatMap
    (fun p => (lines.drop (p.1 - 5)).take (min n (p.1 + 6) - (p.1 - 5))))

/-- `_is_recent_year`: some year token in 2020–2025. -/
def is_recent_year (cs : List Char) : Bool :=
  (findAllYears cs).any (fun y => 2020 ≤ digitsVal y ∧ digitsVal y ≤ 2025)

/-- Case-insensitive literal prefix match (pattern letters are lower
case; `re.IGNORECASE` lowers the subject). -/
def ciPrefEq : List Char → List Char → Bool
  | [], _ => true
  | _ :: _, [] => false
  | v :: vt, c :: ct => v = c.toLower && ciPrefEq vt ct

/-- The lazy `.*?(num)` tail of the context-window regex: the shortest
newline-free gap after which the number pattern matches; the group itself
is then pure greedy (nothing follows it). -/
def lazyGapNum : List Char → Option (ℕ × List Char)
  | [] => none
  | c :: rest =>
    match numGreedy (c :: rest) with
    | some p => some (0, p.1)
    | none => if c = '\n' then none else (lazyGapNum rest).map (fun p => (p.1 + 1, p.2))

/-- `re.search(rf'{variation}.*?(num)', context, re.IGNORECASE)`: leftmost
start position wins; returns `(start, end, group(1))` so the caller can
reconstruct `group(0)` and the surrounding span. -/
def searchVarNumAux : ℕ → List Char → ℕ → List Char → Option (ℕ × ℕ × List Char)
  | 0, _, _, _ => none
  | fuel + 1, var, i, cs =>
    (if ciPrefEq var cs then
      match lazyGapNum (cs.drop var.length) with
      | some (gap, tok) => some (i, i + var.length + gap + tok.length, tok)
      | none => none
    else none).orElse (fun _ =>
      match cs with
      | [] => none
      | _ :: t => searchVarNumAux fuel var (i + 1) t)

def searchVarNum (var context : List Char) : Option (ℕ × ℕ × List Char) :=
  searchVarNumAux (context.length + 1) var 0 context

/-- Variation loop of `_extract_line_item`: on a regex match whose
100-character surrounding span mentions the target year or some recent
year, return `(value, HIGH, group(0))` — `value` may still be `none` if
parsing failed; otherwise try the next variation.  No variation matching
gives `(None, MISSING, None)`. -/
def walkVariations (context : List Char) (year : String) :
    List String → Option ℚ × ConfidenceLevel × Option String
  | [] => (none, .MISSING, none)
  | v :: rest =>
    match searchVarNum v.data context with
    | none => walkVariations context year rest
    | some (s, e, tok) =>
      let surrounding := (context.drop (s - 50)).take (min context.length (e + 50) - (s - 50))
      if listContains surrounding year.data ∨ is_recent_year surrounding then
        (parse_number tok, .HIGH, some (String.mk ((context.drop s).take (e - s))))
      else walkVariations context year rest

/-- `_extract_line_item`. -/
def extract_line_item (context : List Char) (item : IncomeStatementItem) (year : String) :
    Option ℚ × ConfidenceLevel × Option String :=
  walkVariations context year (item_variations item)

/-- `_extract_for_year`: try every canonical item (enum order) against the
year's context window; record items whose value is not `None`.  In the
recorded branch `original_text` is always a matched span, so the `getD`
default is never read. -/
def extract_for_year (text : List Char) (year : String) :
    ItemMap × List (String × String) :=
  allItems.foldl (fun acc item =>
    let r := extract_line_item (get_year_context text year) item year
    match r.1 with
    | some v => (ItemMap.setItem acc.1 item ⟨some v, r.2.2, r.2.1, none⟩,
                 RawRow.setItem acc.2 item.value (r.2.2.getD ""))
    | none => acc) (([], []) : ItemMap × List (String × String))

/-- `_extract_line_by_line`: one period per year with a non-empty item
map; `warnings` stays empty. -/
def extract_line_by_line (text : List Char) (years : List String) :
    DataMap × RawMap × List String :=
  let dr := years.foldl (fun (acc : DataMap × RawMap) year =>
    let yr := extract_for_year text year
    if ¬ yr.1.isEmpty then (acc.1.setKey year yr.1, acc.2.setKey year yr.2)
    else acc) (([], []) : DataMap × RawMap)
  (dr.1, dr.2, [])

/-- Line loop of `_extract_simple_key_value`: strip, require a colon,
split once, keep only `[\d.-]` characters of the right side, `float` it
(a `ValueError` is caught and skips the line), normalize the key, and
record under `"Current"` with confidence `HIGH`. -/
def skvLines : List (List Char) → DataMap × RawMap → DataMap × RawMap
  | [], dr => dr
  | l :: rest, (d, r) =>
    let line := pyStrip l
    if line.isEmpty ∨ ¬ listContains line [':'] then skvLines rest (d, r)
    else
      let i := firstIdx ':' line
      let key := pyStrip (line.take i)
      let value_str := pyStrip (line.drop (i + 1))
      let clean := value_str.filter (fun c => c.isDigit ∨ c = '.' ∨ c = '-')
      if clean.isEmpty then skvLines rest (d, r)
      else
        match pyFloat clean with
        | none => skvLines rest (d, r)
        | some v =>
          match BaseExtractor.normalize_line_item key with
          | some it =>
            let lineS := String.mk line
            skvLines rest (d.setIn "Current" it ⟨some v, some lineS, .HIGH, none⟩,
                           r.setIn "Current" it.value lineS)
          | none => skvLines rest (d, r)

/-- `_extract_simple_key_value`: single pre-initialized `"Current"`
period. -/
def extract_simple_key_value (lines : List (List Char)) : DataMap × RawMap × List String :=
  let dr := skvLines lines ([("Current", [])], [("Current", [])])
  (dr.1, dr.2, [])

/-- The data-producing part of `PatternExtractor.extract`: years from the
table header, else from the whole text; with two or more years the table
strategy, falling back to line-by-line when it produced no values; and the
simple key-value strategy when everything so far produced no values for
any period of interest. -/
def computeData (text : String) : DataMap × RawMap × List String :=
  let lines := splitLines text
  let years0 := extract_years_from_table lines
  let years := if years0.isEmpty then extract_years text.data else years0
  let m1 : DataMap × RawMap × List String :=
    if ¬ years.isEmpty ∧ years.length ≥ 2 then
      let mt := extract_from_table lines years
      if mt.1.isEmpty ∨ years.all (fun y => ((mt.1.getKey y).getD []).isEmpty) then
        extract_line_by_line text.data years
      else mt
    else ([], [], [])
  if m1.1.isEmpty ∨ (if years.isEmpty then ["Current"] else years).all
      (fun y => ((m1.1.getKey y).getD []).isEmpty) then
    extract_simple_key_value lines
  else m1

/-- `PatternExtractor.extract`: assemble the result; `missing_items` is
universe minus found, a summary warning is appended when it is non-empty,
and overall confidence is `MEDIUM` when the data dict is truthy (non-empty
as a dict, even if every period is empty) else `LOW`. -/
def extract (text : String) : FinancialExtractionResult :=
  let m := computeData text
  let missing := missingOf m.1
  { document_name := "Pattern_Extracted"
    extraction_date := ""
    currency := detect_currency text
    unit := detect_unit text
    confidence_overall := if ¬ m.1.isEmpty then .MEDIUM else .LOW
    data := m.1
    warnings := if missing.isEmpty then m.2.2 else
      m.2.2 ++ ["Missing items: " ++ String.intercalate ", " (missing.map (fun i => i.value))]
    missing_items := missing
    raw_extracts := m.2.1 }

end PatternExtractor

/-! ## `DocumentProcessor._extract_financial_data`
(`src/app/core/document_processor.py`) -/

namespace DocumentProcessor

/-- `_extract_financial_data`: free extractor first; keep its result when
its data dict is truthy and some period holds a value, else fall back to
the pattern extractor.  `document_name`/`extraction_date` are overwritten
from the filename and the wall clock, passed here as parameters; the
`try`/`except` around the free extractor is vacuous in the model (the
embedded extractor is total). -/
def extract_financial_data (text filename now : String) : FinancialExtractionResult :=
  let result := FreeExtractor.extract text
  if ¬ result.data.isEmpty ∧ anyValues result.data then
    { result with document_name := filename, extraction_date := now }
  else
    let r2 := PatternExtractor.extract text
    { r2 with document_name := filename, extraction_date := now }

end DocumentProcessor

/-! ## Helper lemmas -/

theorem mem_allItems (i : IncomeStatementItem) : i ∈ allItems := by
  cases i <;> simp [allItems]

theorem itemFound_iff (d : DataMap) (i : IncomeStatementItem) :
    itemFound d i = true ↔ appearsIn d i := by
  unfold itemFound appearsIn
  simp only [List.any_eq_true, decide_eq_true_eq]
  constructor
  · rintro ⟨p, hp, q, hq, hqi⟩
    refine ⟨p.1, p.2, hp, q.2, ?_⟩
    rw [← hqi]
    simpa using hq
  · rintro ⟨a, b, hab, v, hv⟩
    exact ⟨(a, b), hab, (i, v), hv, rfl⟩

theorem mem_missingOf (d : DataMap) (i : IncomeStatementItem) :
    i ∈ missingOf d ↔ i ∈ allItems ∧ ¬ appearsIn d i := by
  rw [missingOf, List.mem_filter, Bool.not_eq_true', ← Bool.not_eq_true, itemFound_iff]

theorem contains_of_mem (c : Char) (l : List Char) (h : c ∈ l) :
    listContains l [c] = true := by
  induction l with
  | nil => simp at h
  | cons a t ih =>
    show (([c].isPrefixOf (a :: t)) || listContains t [c]) = true
    rcases List.mem_cons.mp h with h1 | h2
    · subst h1; simp [List.isPrefixOf]
    · rw [ih h2, Bool.or_true]

theorem setIn_fst (d : DataMap) (y : String) (k : IncomeStatementItem) (v : ExtractedValue) :
    (DataMap.setIn d y k v).map Prod.fst = d.map Prod.fst := by
  unfold DataMap.setIn
  induction d with
  | nil => rfl
  | cons a t ih =>
    simp only [List.map_cons, ih]
    by_cases h : a.1 = y <;> simp [h]

theorem tryItems_fst (mapping : List (String × IncomeStatementItem)) (line : List Char)
    (d : DataMap) (r : RawMap) :
    ((FreeExtractor.tryItems mapping line (d, r)).1).map Prod.fst = d.map Prod.fst := by
  induction mapping with
  | nil => rfl
  | cons a rest ih =>
    obtain ⟨t, it⟩ := a
    rw [FreeExtractor.tryItems]
    split
    · dsimp only
      split
      · simp [setIn_fst]
      · exact ih
    · exact ih

theorem tableLines_fst (lines : List (List Char)) :
    ∀ (d : DataMap) (r : RawMap),
      ((FreeExtractor.tableLines lines (d, r)).1).map Prod.fst = d.map Prod.fst := by
  induction lines with
  | nil => intro d r; rfl
  | cons l rest ih =>
    intro d r
    rw [FreeExtractor.tableLines]
    split
    · exact ih d r
    · exact (ih (FreeExtractor.tryItems FreeExtractor.item_mapping (pyStrip l) (d, r)).1
        (FreeExtractor.tryItems FreeExtractor.item_mapping (pyStrip l) (d, r)).2).trans
        (tryItems_fst _ _ _ _)

theorem walkMappings_eq_find? (l : List (String × IncomeStatementItem)) (tl : List Char) :
    BaseExtractor.walkMappings l tl =
      (l.find? (fun p => listContains tl p.1.data)).map (fun p => p.2) := by
  induction l with
  | nil => rfl
  | cons a rest ih =>
    obtain ⟨k, v⟩ := a
    rw [BaseExtractor.walkMappings]
    by_cases h : listContains tl k.data = true
    · rw [if_pos h, List.find?_cons_of_pos _ (by exact h)]
      rfl
    · rw [if_neg h, List.find?_cons_of_neg _ (by simpa using h)]
      exact ih

theorem extract_years_from_table_empty (lines : List (List Char))
    (h : ∀ l ∈ lines, PatternExtractor.searchYearHeader l = none) :
    PatternExtractor.extract_years_from_table lines = [] := by
  induction lines with
  | nil => rfl
  | cons a t ih =>
    rw [PatternExtractor.extract_years_from_table, h a (by simp)]
    exact ih (fun l hl => h l (List.mem_cons_of_mem a hl))

/-! ## Claim theorems -/

/-- Claim C1: for the table strategy of the default engine, the input with
header line `"2022 2023"` followed by the row `"Revenue $1,100.2 $1,234.5"`
yields `data["2023"][Revenue].value == 1100.2` and
`data["2022"][Revenue].value == 1234.5` — the first numeric token on the
matched row goes to the second (rightmost) header year, the second token to
the first header year — both with confidence `HIGH` and provenance equal to
the full matched line. -/
theorem claim_C1_table_inversion_scenario :
    DataMap.getIn (FreeExtractor.extract "2022 2023\nRevenue $1,100.2 $1,234.5").data
        "2023" .REVENUE =
      some ⟨some (mkRat 11002 10), some "Revenue $1,100.2 $1,234.5", .HIGH, none⟩
  ∧ DataMap.getIn (FreeExtractor.extract "2022 2023\nRevenue $1,100.2 $1,234.5").data
        "2022" .REVENUE =
      some ⟨some (mkRat 12345 10), some "Revenue $1,100.2 $1,234.5", .HIGH, none⟩ := by
  decide

/-- Claim C2: for every extraction result of either engine, an item is in
`missing_items` exactly when it is in the 11-item universe and appears
under no period of `data` — on every call, including empty data. -/
theorem claim_C2_missing_items_invariant (text : String) (i : IncomeStatementItem) :
    allItems.length = 11
  ∧ (i ∈ (FreeExtractor.extract text).missing_items ↔
       i ∈ allItems ∧ ¬ appearsIn (FreeExtractor.extract text).data i)
  ∧ (i ∈ (PatternExtractor.extract text).missing_items ↔
       i ∈ allItems ∧ ¬ appearsIn (PatternExtractor.extract text).data i) :=
  ⟨rfl, mem_missingOf _ _, mem_missingOf _ _⟩

/-- Claim C3 (code bug): on `"Revenue: 1234.5\nNet Income: 88.1"` the
pipeline does *not* produce the claimed period `"Current"` with
Revenue = 1234.5 and Net Income = 88.1.  The free engine's table-format
method fires first: its `\d{1,3}`-anchored number regex splits `1234.5`
into the tokens `123` and `4.5`, so the result has the fixed periods
`"2023"`/`"2022"` with Revenue 123.0 and 4.5 and no Net Income at all. -/
theorem claim_C3_key_value_scenario_actual :
    (DocumentProcessor.extract_financial_data "Revenue: 1234.5\nNet Income: 88.1"
        "doc.txt" "2024-01-01").data =
      [("2023", [(.REVENUE, ⟨some (mkRat 123 1), some "Revenue: 1234.5", .HIGH, none⟩)]),
       ("2022", [(.REVENUE, ⟨some (mkRat 45 10), some "Revenue: 1234.5", .HIGH, none⟩)])]
  ∧ DataMap.getKey (DocumentProcessor.extract_financial_data
        "Revenue: 1234.5\nNet Income: 88.1" "doc.txt" "2024-01-01").data "Current" = none := by
  decide

/-- Claim C4 (code bug): the shared number parser maps `"1.234,56"` to
1.23456, not the claimed (and source-commented) 1234.56: commas are removed
before the European-convention branch tests for them, so that branch is
dead code. -/
theorem claim_C4_european_format_actual :
    PatternExtractor.parse_number "1.234,56".data = some (mkRat 123456 100000)
  ∧ PatternExtractor.parse_number "1.234,56".data ≠ some (mkRat 123456 100) := by
  decide

/-- Claim C5 counterexample: the free engine's `_parse_number` — one of the
two parsers the claim covers — has no `try`/`except`, so on `"abc"` its
`float()` call raises `ValueError` to the caller (modelled as `none`,
versus the claim that the parser never raises). -/
theorem claim_C5_counterexample :
    FreeExtractor.parse_number "abc".data = none := by
  decide

/-- Claim C5 amended: the *pattern* engine's number parser returns a float
or null for every input and never raises — `-1234.0` for `"(1,234)"`,
null for `"abc"` and for the empty string — while the free engine's own
parser propagates `ValueError` on non-numeric input (it only ever receives
regex-matched numeric tokens). -/
theorem claim_C5_parser_contract :
    PatternExtractor.parse_number "(1,234)".data = some (mkRat (-1234) 1)
  ∧ PatternExtractor.parse_number "abc".data = none
  ∧ PatternExtractor.parse_number "".data = none
  ∧ FreeExtractor.parse_number "abc".data = none := by
  decide

/-- Claim C6 counterexample: on the label `"reven"` the claimed rule
(first table entry whose phrase is a substring of the label *or whose
label is a substring of the phrase*) returns Revenue, but the source
normalizer returns no match — it never tests the second direction. -/
theorem claim_C6_counterexample :
    BaseExtractor.normalize_line_item "reven".data = none
  ∧ specNormalizeBothWays "reven".data = some .REVENUE := by
  decide

/-- Claim C6 amended: for every label the normalizer lower-cases and trims
it, returns the first entry of the fixed ordered phrase table whose phrase
is a substring of the label (only that direction), and only when the table
lookup fails applies the catch-alls: `"r&d"`/`"research"` → R&D, then
`"sg&a"`/`"selling"` → SG&A, else no match. -/
theorem claim_C6_normalizer_table_walk (text : List Char) :
    BaseExtractor.normalize_line_item text = specNormalizeSubstrOnly text := by
  unfold BaseExtractor.normalize_line_item specNormalizeSubstrOnly
  rw [walkMappings_eq_find?]
  cases BaseExtractor.mappings.find? (fun p =>
    listContains (pyStrip (pyLower text)) p.1.data) <;> rfl

/-- Claim C7 counterexample: on the empty input the pipeline's overall
confidence is `MEDIUM`, not the claimed `LOW` — the free engine finds
nothing, and the pattern fallback's confidence test `if data` sees the
truthy dict `{"Current": {}}` left by its key-value method. -/
theorem claim_C7_counterexample :
    (DocumentProcessor.extract_financial_data "" "empty.txt" "2024-01-01").confidence_overall
        = ConfidenceLevel.MEDIUM
  ∧ (DocumentProcessor.extract_financial_data "" "empty.txt" "2024-01-01").confidence_overall
        ≠ ConfidenceLevel.LOW := by
  decide

/-- Claim C7 amended: the empty input yields a structurally valid result
(no exception) whose data holds the single empty period `"Current"` and no
extracted values, whose `missing_items` is the full 11-item universe, and
whose overall confidence is `MEDIUM`. -/
theorem claim_C7_empty_input :
    (DocumentProcessor.extract_financial_data "" "empty.txt" "2024-01-01").data
        = [("Current", [])]
  ∧ anyValues (DocumentProcessor.extract_financial_data "" "empty.txt" "2024-01-01").data
        = false
  ∧ (DocumentProcessor.extract_financial_data "" "empty.txt" "2024-01-01").missing_items
        = allItems
  ∧ (DocumentProcessor.extract_financial_data "" "empty.txt" "2024-01-01").confidence_overall
        = ConfidenceLevel.MEDIUM := by
  decide

/-- Claim C8: currency and unit detection are first-match-wins over the
fixed enumeration order and never fail: any text containing `$` gives USD
(the USD pattern is first), `"Figures in millions"` gives MILLIONS, and a
text matching no currency or unit pattern gives UNKNOWN for both. -/
theorem claim_C8_metadata_detection (t : String) (h : '$' ∈ t.data) :
    PatternExtractor.detect_currency t = Currency.USD
  ∧ PatternExtractor.detect_unit "Figures in millions" = Unit.MILLIONS
  ∧ PatternExtractor.detect_currency "qzx" = Currency.UNKNOWN
  ∧ PatternExtractor.detect_unit "qzx" = Unit.UNKNOWN := by
  refine ⟨?_, by decide, by decide, by decide⟩
  have hmem : '$' ∈ pyLower t.data := List.mem_map.mpr ⟨'$', h, by decide⟩
  have hc : listContains (pyLower t.data) ['$'] = true := contains_of_mem _ _ hmem
  have hfind : List.find? (fun p => p.2.any fun w => listContains (pyLower t.data) w.data)
      PatternExtractor.currency_patterns = some (Currency.USD, ["$", "dollar", "usd"]) := by
    unfold PatternExtractor.currency_patterns
    apply List.find?_cons_of_pos
    simp only [List.any_cons]
    rw [hc]
    rfl
  unfold PatternExtractor.detect_currency
  rw [hfind]

/-- Witness for C8 at a concrete text containing `$`. -/
theorem claim_C8_witness :
    '$' ∈ ("cost $9" : String).data
  ∧ PatternExtractor.detect_currency "cost $9" = Currency.USD :=
  ⟨by decide, (claim_C8_metadata_detection "cost $9" (by decide)).1⟩

/-- Claim C9 counterexample: on `"Revenue 100 200"` no line contains two
four-digit year tokens separated by whitespace, yet the default engine's
table strategy does not yield empty — it extracts Revenue under the fixed
keys `"2023"`/`"2022"` without consulting years, and the cascade stops
with its output. -/
theorem claim_C9_counterexample :
    (∀ l ∈ splitLines "Revenue 100 200", PatternExtractor.searchYearHeader l = none)
  ∧ anyValues (FreeExtractor.extract_table_format (splitLines "Revenue 100 200")).1 = true
  ∧ DataMap.getIn (FreeExtractor.extract "Revenue 100 200").data "2023" .REVENUE =
      some ⟨some (mkRat 100 1), some "Revenue 100 200", .HIGH, none⟩ := by
  decide

/-- Claim C9 amended: if no line of the input matches the two-year
whitespace-separated header pattern, the pattern engine's header scan
`_extract_years_from_table` returns no years.  (The strategies themselves
may still extract: the default engine's table method never inspects years,
and the pattern engine can take years from anywhere in the text.) -/
theorem claim_C9_header_scan (lines : List (List Char))
    (h : ∀ l ∈ lines, PatternExtractor.searchYearHeader l = none) :
    PatternExtractor.extract_years_from_table lines = [] :=
  extract_years_from_table_empty lines h

/-- Witness for C9 at a concrete header-free input. -/
theorem claim_C9_witness :
    (∀ l ∈ splitLines "Revenue alone", PatternExtractor.searchYearHeader l = none)
  ∧ PatternExtractor.extract_years_from_table (splitLines "Revenue alone") = [] :=
  ⟨by decide, claim_C9_header_scan (splitLines "Revenue alone") (by decide)⟩

/-- Claim C10: for every input, the default engine's table-format method
stores values only under the two fixed period keys `"2023"` and `"2022"`,
in that order, regardless of which years appear in the document; on a
matched row the first number goes under `"2023"` and the second under
`"2022"` even when the header names entirely different years. -/
theorem claim_C10_fixed_period_keys (lines : List (List Char)) :
    ((FreeExtractor.extract_table_format lines).1).map Prod.fst = ["2023", "2022"]
  ∧ (FreeExtractor.extract_table_format (splitLines "2019 2018\nRevenue $5.0 $6.0")).1 =
      [("2023", [(.REVENUE, ⟨some (mkRat 50 10), some "Revenue $5.0 $6.0", .HIGH, none⟩)]),
       ("2022", [(.REVENUE, ⟨some (mkRat 60 10), some "Revenue $5.0 $6.0", .HIGH, none⟩)])] :=
  ⟨tableLines_fst lines _ _, by decide⟩

end SeededExtraction
